import Mathlib

/-
Shallow embedding of the Magic 8-ball Slack bot (Go sources: the hybrid
socket+HTTP variant in main.go, the socket-only variant and the HTTP-only
variant in the unnamed file). The embedding covers the reply pipeline
shared by the app-mention handler and the slash-command handler, the
mention-stripping normalizer removeBotMention, and the HTTP dispatch
structure of handleSlashCommand, including the order of ResponseWriter
operations.

Text is modelled as Lean String (a list of characters); Go byte-level
string functions are modelled at the character level, which coincides with
the byte level for the ASCII characters these predicates inspect (an ASCII
byte never occurs inside a multi-byte UTF-8 rune).
-/

/-- Characters treated as whitespace by strings.TrimSpace: the ASCII and
Latin-1 part of unicode.IsSpace (space, tab, newline, vertical tab, form
feed, carriage return, next-line, no-break space). -/
def isGoSpace (c : Char) : Bool :=
  c == ' ' || c == '\t' || c == '\n' || c == '\x0b' || c == '\x0c' || c == '\r' ||
  c == '\u0085' || c == '\u00A0'

/-- Trailing-whitespace trimming on a character list (the right half of
strings.TrimSpace). -/
def trimRightL : List Char → List Char
  | [] => []
  | c :: cs =>
    match trimRightL cs with
    | [] => if isGoSpace c then [] else [c]
    | d :: ds => c :: d :: ds

/-- strings.TrimSpace on a character list: drop whitespace from both ends. -/
def trimL (l : List Char) : List Char := trimRightL (l.dropWhile isGoSpace)

/-- strings.TrimSpace. -/
def goTrim (s : String) : String := String.mk (trimL s.data)

/-- One attempted match of the mention pattern of removeBotMention at the
head of the input: the pattern is the two literal characters of the opening
mention marker, then one or more characters other than the closing angle
bracket, then the closing angle bracket (the pattern compiled by
regexp.MustCompile in removeBotMention). On a match, returns the input text
that follows the matched span; the span is determined (the run of
non-closing characters is maximal, and shortening it cannot expose the
required closing bracket). -/
def dropMention : List Char → Option (List Char)
  | '<' :: '@' :: rest =>
    match rest.dropWhile (fun c => c != '>') with
    | '>' :: tail =>
      if (rest.takeWhile (fun c => c != '>')).isEmpty then none else some tail
    | _ => none
  | _ => none

/-- Fuelled scan of Regexp.ReplaceAllString with the empty replacement:
advance over the input left to right, deleting each leftmost non-overlapping
match of the mention pattern and continuing after it. The fuel only bounds
the recursion; one unit per input position suffices (rmFuel_fuel_irrelevant
below). -/
def rmFuel : Nat → List Char → List Char
  | 0, l => l
  | _ + 1, [] => []
  | n + 1, c :: cs =>
    match dropMention (c :: cs) with
    | some tail => rmFuel n tail
    | none => c :: rmFuel n cs

/-- mentionPattern.ReplaceAllString(text, "") from removeBotMention. -/
def removeMentions (l : List Char) : List Char := rmFuel l.length l

/-- Whether any position of the input starts a match of the mention
pattern. -/
def containsMention : List Char → Bool
  | [] => false
  | c :: cs => (dropMention (c :: cs)).isSome || containsMention cs

/-- removeBotMention from main.go (the two-argument variant in the
socket-only file ignores its userID argument and has the same body):
delete every mention-pattern match, then trim surrounding whitespace. -/
def removeBotMention (text : String) : String :=
  String.mk (trimL (removeMentions text.data))

/-- The query normalization performed by handleAppMention before
classifying: userQuery is TrimSpace of the event text, then
removeBotMention of that. -/
def normalizeMention (text : String) : String :=
  removeBotMention (goTrim text)

/-- strings.HasSuffix(s, the question-mark string): the last character is
the question mark (for valid UTF-8, the final byte is that ASCII byte
exactly when the final rune is). -/
def hasSuffixQ (s : String) : Bool := s.data.getLast? == some '?'

/-- strings.ToLower, for the ASCII range that the classifier's prefix test
inspects: each character is lowered independently. -/
def toLowerGo (s : String) : String := String.mk (s.data.map Char.toLower)

/-- Decidable character-list prefix test. -/
def isPrefixL : List Char → List Char → Bool
  | [], _ => true
  | _ :: _, [] => false
  | a :: as, b :: bs => a == b && isPrefixL as bs

/-- The alternation branches of the classifier's pattern. -/
def questionWords : List String :=
  ["who", "what", "when", "where", "why", "how", "if"]

/-- Whether the input starts with one of the question words. -/
def startsWithQW (s : String) : Bool :=
  questionWords.any (fun w => isPrefixL w.data s.data)

/-- The fixed pattern passed to regexp.MatchString by both handlers:
anchored at the start, an alternation of the seven question words, then any
(possibly empty) tail. -/
def openEndedPattern : String := "^(who|what|when|where|why|how|if).*"

/-- Parenthesis balance check, part of the syntactic validity that
regexp.Compile enforces. -/
def parensOk : List Char → Nat → Bool
  | [], 0 => true
  | [], _ + 1 => false
  | '(' :: rest, d => parensOk rest (d + 1)
  | ')' :: rest, d =>
    match d with
    | 0 => false
    | e + 1 => parensOk rest e
  | _ :: rest, d => parensOk rest d

/-- Repetition operators need an operand: the star may not open the
pattern and may not directly follow a group opening, an alternation bar,
another star, or the anchor. Part of the validity check of
regexp.Compile. -/
def starsOk : Option Char → List Char → Bool
  | _, [] => true
  | prev, c :: rest =>
    (if c = '*' then
      match prev with
      | none => false
      | some p => !(p == '(' || p == '|' || p == '*' || p == '^')
    else true) && starsOk (some c) rest

/-- The part of regexp.Compile's validity check relevant to the fixed
pattern: balanced parentheses and well-placed repetition operators.
regexp.MatchString reports an error exactly when compilation fails. -/
def patternOk (p : String) : Bool := parensOk p.data 0 && starsOk none p.data

/-- regexp.MatchString(openEndedPattern, s): an error when the pattern does
not compile; otherwise whether a match exists. Since the pattern is
anchored, a match must start at position zero; the alternation requires one
of the question words there, and the trailing closure also matches the
empty tail, so a match exists exactly when the input starts with one of the
question words. -/
def goMatchString (s : String) : Except String Bool :=
  if patternOk openEndedPattern then Except.ok (startsWithQW s)
  else Except.error "error parsing regexp"

/-- The fixed response pool (identical in all three source variants). -/
def magicResponse : List String :=
  ["Signs point to no.",
   "Yes.",
   "Reply hazy, try again.",
   "Without a doubt.",
   "My sources say no.",
   "As I see it, yes.",
   "You may rely on it.",
   "Concentrate and ask again.",
   "Outlook not so good.",
   "It is decidedly so.",
   "Better not tell you now.",
   "Very doubtful.",
   "Yes - definitely.",
   "It is certain.",
   "Cannot predict now.",
   "Most likely.",
   "Ask again later.",
   "My reply is no.",
   "Outlook good.",
   "Don't count on it."]

/-- The pool is non-empty, so the modulo draw below is always in range. -/
theorem magicResponse_length_pos : 0 < magicResponse.length := by decide

/-- Models a draw from the shared seeded random source: rand.Intn(n)
returns a value in the half-open range from zero to n. The source state is
abstracted as a natural number and the draw as reduction modulo n. -/
def randIntn (state n : Nat) : Nat := state % n

/-- The reply decision shared verbatim by handleAppMention and
handleSlashCommand (both variants): a fixed prompt when the query does not
end in a question mark; on a pattern-match error, a fixed fallback; on a
match of the lowered text, a fixed rejection; otherwise a uniformly drawn
pool entry, indexed by rand.Intn of the pool length. -/
def computeReply (userQuery : String) (seed : Nat) : String :=
  if hasSuffixQ userQuery = false then "Where's the question?"
  else
    match goMatchString (toLowerGo userQuery) with
    | Except.error _ => "I'm having trouble understanding. Please try again."
    | Except.ok true => "I'm not a tarot deck. Yes or no questions please."
    | Except.ok false =>
      magicResponse.get
        ⟨randIntn seed magicResponse.length,
         Nat.mod_lt seed magicResponse_length_pos⟩

/-- Modelled from the spec: the three-way classification of the data model
(the handlers inline it as a chain of branches). -/
inductive Classification where
  | NotAQuestion : Classification
  | OpenEndedQuestion : Classification
  | YesNoQuestion : Classification
deriving DecidableEq

/-- Modelled from the spec: QuestionClassifier. Not ending in a question
mark is not a question; a lowered text starting with a question word is an
open-ended question; anything else is a yes/no question. -/
def classify (q : String) : Classification :=
  if hasSuffixQ q = false then Classification.NotAQuestion
  else if startsWithQW (toLowerGo q) then Classification.OpenEndedQuestion
  else Classification.YesNoQuestion

/-- Modelled from the spec: ReplySelector. A fixed prompt, a fixed
rejection, or a uniformly drawn pool entry. -/
def selectReply (c : Classification) (seed : Nat) : String :=
  match c with
  | Classification.NotAQuestion => "Where's the question?"
  | Classification.OpenEndedQuestion =>
    "I'm not a tarot deck. Yes or no questions please."
  | Classification.YesNoQuestion =>
    magicResponse.get
      ⟨randIntn seed magicResponse.length,
       Nat.mod_lt seed magicResponse_length_pos⟩

/-- An app-mention event, as consumed by handleAppMention: the fields the
handler reads from slackevents.AppMentionEvent. -/
structure AppMentionEvent where
  user : String
  channel : String
  text : String

/-- handleAppMention from main.go (the socket-only variant computes the
same reply; it passes event.User to removeBotMention, which ignores it).
Returns the posted reply together with the destination channel of the
PostMessage call. The random-source state is the seed argument. -/
def handleAppMention (event : AppMentionEvent) (seed : Nat) : String × String :=
  (computeReply (normalizeMention event.text) seed, event.channel)

/-- The observable effect of an http.ResponseWriter: the status actually
sent (the first WriteHeader call wins; later calls are logged as
superfluous and ignored), the effective Content-Type header (header-map
changes after WriteHeader have no effect), and the accumulated body. -/
structure ResponseWriter where
  status : Option Nat
  contentType : Option String
  body : String
deriving DecidableEq

/-- A fresh ResponseWriter: nothing sent yet. -/
def ResponseWriter.empty : ResponseWriter :=
  { status := none, contentType := none, body := "" }

/-- w.WriteHeader(code): only the first call takes effect. -/
def writeHeader (code : Nat) (w : ResponseWriter) : ResponseWriter :=
  if w.status.isSome then w else { w with status := some code }

/-- w.Header().Set of the Content-Type key: no effect once WriteHeader has
been called. -/
def setContentType (ct : String) (w : ResponseWriter) : ResponseWriter :=
  if w.status.isSome then w else { w with contentType := some ct }

/-- w.Write(b): sends the 200 header first if none was sent, then appends
to the body. -/
def writeBody (b : String) (w : ResponseWriter) : ResponseWriter :=
  { writeHeader 200 w with body := w.body ++ b }

/-- http.Error(w, msg, code): set the plain-text Content-Type, write the
status, write the message and a newline. -/
def httpError (w : ResponseWriter) (msg : String) (code : Nat) : ResponseWriter :=
  writeBody (msg ++ "\n") (writeHeader code (setContentType "text/plain; charset=utf-8" w))

/-- A slash-command HTTP request as seen by handleSlashCommand. The Boolean
fields abstract the outcomes of the library calls the handler makes, in
order: io.ReadAll of the body, slack.NewSecretsVerifier over the headers,
sv.Write of the body, sv.Ensure (the signature check proper),
slack.SlashCommandParse, and json.Marshal of the response map. text is the
Text field of the parsed payload. -/
structure SlashRequest where
  method : String
  bodyReadOk : Bool
  verifierHeadersOk : Bool
  verifierWriteOk : Bool
  signatureValid : Bool
  parseOk : Bool
  text : String
  marshalOk : Bool
deriving DecidableEq

/-- The outcome of a slash-command request: the final ResponseWriter state,
and the reply the core pipeline computed, when it ran at all. -/
structure SlashResult where
  w : ResponseWriter
  computedReply : Option String
deriving DecidableEq

/-- json escaping of a string value, for the characters that occur in
replies (encoding/json additionally escapes control characters and
HTML-sensitive characters, none of which occur in any reply). -/
def jsonEscapeChar (c : Char) : String :=
  if c = '\x22' then "\\\x22"
  else if c = '\\' then "\\\\"
  else if c = '\n' then "\\n"
  else if c = '\r' then "\\r"
  else if c = '\t' then "\\t"
  else String.mk [c]

/-- json.Marshal of the single-key response map built by the handlers:
the body written on the success path. -/
def marshalTextMap (v : String) : String :=
  "\x7b\x22text\x22:\x22" ++ String.join (v.data.map jsonEscapeChar) ++ "\x22\x7d"

/-- handleSlashCommand from main.go (the hybrid variant), as a function of
the abstracted request and the random-source state. Guard order, status
codes and the order of ResponseWriter operations follow the source: after
the payload parses, the handler first sends the 200 header, then sets the
Content-Type (too late to take effect), then computes the reply, marshals
the map holding it and either writes the JSON or calls http.Error with 500
(too late to change the status). -/
def handleSlashCommand (req : SlashRequest) (seed : Nat) : SlashResult :=
  if req.method ≠ "POST" then
    ⟨httpError ResponseWriter.empty "Method not allowed" 405, none⟩
  else if req.bodyReadOk = false then
    ⟨httpError ResponseWriter.empty "Bad request" 400, none⟩
  else if req.verifierHeadersOk = false then
    ⟨httpError ResponseWriter.empty "Bad request" 400, none⟩
  else if req.verifierWriteOk = false then
    ⟨httpError ResponseWriter.empty "Internal server error" 500, none⟩
  else if req.signatureValid = false then
    ⟨httpError ResponseWriter.empty "Forbidden" 403, none⟩
  else if req.parseOk = false then
    ⟨httpError ResponseWriter.empty "Bad request" 400, none⟩
  else
    let w1 := writeHeader 200 ResponseWriter.empty
    let w2 := setContentType "application/json" w1
    let reply := computeReply req.text seed
    if req.marshalOk then ⟨writeBody (marshalTextMap reply) w2, some reply⟩
    else ⟨httpError w2 "Internal server error" 500, some reply⟩

/-- handleSlashCommand from the HTTP-only variant in the unnamed file: same
guards, but the reply is computed first, the marshalled map carries a fixed
placeholder text instead of the computed reply, and WriteHeader(200) (then
the too-late Content-Type set) happens only on the marshalling success
path. -/
def handleSlashCommandHttpVariant (req : SlashRequest) (seed : Nat) : SlashResult :=
  if req.method ≠ "POST" then
    ⟨httpError ResponseWriter.empty "Method not allowed" 405, none⟩
  else if req.bodyReadOk = false then
    ⟨httpError ResponseWriter.empty "Bad request" 400, none⟩
  else if req.verifierHeadersOk = false then
    ⟨httpError ResponseWriter.empty "Bad request" 400, none⟩
  else if req.verifierWriteOk = false then
    ⟨httpError ResponseWriter.empty "Internal server error" 500, none⟩
  else if req.signatureValid = false then
    ⟨httpError ResponseWriter.empty "Forbidden" 403, none⟩
  else if req.parseOk = false then
    ⟨httpError ResponseWriter.empty "Bad request" 400, none⟩
  else
    let reply := computeReply req.text seed
    if req.marshalOk then
      let w1 := writeHeader 200 ResponseWriter.empty
      let w2 := setContentType "application/json" w1
      ⟨writeBody (marshalTextMap "Magic 8-ball is here! (This is a test response)") w2,
       some reply⟩
    else ⟨httpError ResponseWriter.empty "Internal server error" 500, some reply⟩

/-- All request-stage guards of handleSlashCommand pass: POST method, body
read, verifier construction, verifier write, signature, payload parse. -/
def okGuards (req : SlashRequest) : Bool :=
  req.method == "POST" && req.bodyReadOk && req.verifierHeadersOk &&
  req.verifierWriteOk && req.signatureValid && req.parseOk

/-- The fixed pattern passes the compile-time validity check, so
regexp.MatchString never reports an error for it. -/
theorem goMatch_ok (s : String) : goMatchString s = Except.ok (startsWithQW s) := by
  have h : patternOk openEndedPattern = true := by decide
  simp [goMatchString, h]

/-- The inlined branch chain of the handlers is the composition of the
spec-level classifier and selector. -/
theorem computeReply_eq_pipeline (q : String) (seed : Nat) :
    computeReply q seed = selectReply (classify q) seed := by
  unfold computeReply classify
  rw [goMatch_ok]
  cases h1 : hasSuffixQ q with
  | false => simp [selectReply]
  | true =>
    cases h2 : startsWithQW (toLowerGo q) with
    | false => simp [selectReply]
    | true => simp [selectReply]

/-- Dropping leading whitespace twice is the same as dropping it once. -/
theorem dropWhile_isGoSpace_idem (l : List Char) :
    List.dropWhile isGoSpace (List.dropWhile isGoSpace l)
      = List.dropWhile isGoSpace l := by
  induction l with
  | nil => rfl
  | cons a t ih =>
    by_cases h : isGoSpace a = true
    · simp [List.dropWhile_cons, h, ih]
    · simp [List.dropWhile_cons, h]

/-- The head surviving a leading-whitespace drop is not whitespace. -/
theorem dropWhile_head_false (l : List Char) (c : Char) (cs : List Char)
    (h : List.dropWhile isGoSpace l = c :: cs) : isGoSpace c = false := by
  induction l with
  | nil => simp at h
  | cons a t ih =>
    rw [List.dropWhile_cons] at h
    by_cases ha : isGoSpace a = true
    · rw [if_pos ha] at h
      exact ih h
    · rw [if_neg ha] at h
      cases h
      simpa using ha

/-- Trailing-whitespace trimming keeps the head character or empties the
list. -/
theorem trimRightL_head (c : Char) (cs : List Char) :
    trimRightL (c :: cs) = [] ∨ ∃ r, trimRightL (c :: cs) = c :: r := by
  simp only [trimRightL]
  cases h : trimRightL cs with
  | nil =>
    by_cases hs : isGoSpace c = true
    · left; simp [hs]
    · right; exact ⟨[], by simp [hs]⟩
  | cons d ds => right; exact ⟨d :: ds, rfl⟩

/-- One unfolding step of trailing-whitespace trimming. -/
theorem trimRightL_cons (c : Char) (cs : List Char) :
    trimRightL (c :: cs)
      = match trimRightL cs with
        | [] => if isGoSpace c then [] else [c]
        | d :: ds => c :: d :: ds := rfl

/-- Trailing-whitespace trimming is idempotent. -/
theorem trimRightL_idem (l : List Char) : trimRightL (trimRightL l) = trimRightL l := by
  induction l with
  | nil => rfl
  | cons c cs ih =>
    rw [trimRightL_cons c cs]
    cases h : trimRightL cs with
    | nil =>
      by_cases hs : isGoSpace c = true
      · simp [hs, trimRightL]
      · simp [hs, trimRightL]
    | cons d ds =>
      rw [h] at ih
      rw [trimRightL_cons c (d :: ds), ih]

/-- After a full trim, no leading whitespace remains. -/
theorem dropWhile_trimL (l : List Char) :
    List.dropWhile isGoSpace (trimL l) = trimL l := by
  unfold trimL
  cases h : List.dropWhile isGoSpace l with
  | nil => simp [trimRightL]
  | cons c cs =>
    have hc : isGoSpace c = false := dropWhile_head_false l c cs h
    rcases trimRightL_head c cs with h2 | ⟨r, h2⟩
    · simp [h2]
    · simp [h2, List.dropWhile_cons, hc]

/-- strings.TrimSpace is idempotent. -/
theorem trimL_idem (l : List Char) : trimL (trimL l) = trimL l := by
  have h := dropWhile_trimL l
  unfold trimL at h ⊢
  rw [h]
  exact trimRightL_idem _

/-- When no position of the input matches the mention pattern, the
replacement scan returns the input unchanged, whatever the fuel. -/
theorem rmFuel_of_not_contains (n : Nat) (l : List Char)
    (h : containsMention l = false) : rmFuel n l = l := by
  induction n generalizing l with
  | zero => rfl
  | succ n ih =>
    cases l with
    | nil => rfl
    | cons c cs =>
      simp only [containsMention, Bool.or_eq_false_iff] at h
      obtain ⟨h1, h2⟩ := h
      cases hd : dropMention (c :: cs) with
      | some t => rw [hd] at h1; simp at h1
      | none => simp [rmFuel, hd, ih cs h2]

/-- Dropping a prefix cannot lengthen a list. -/
theorem dropWhile_length_le (p : Char → Bool) (l : List Char) :
    (l.dropWhile p).length ≤ l.length := by
  induction l with
  | nil => simp
  | cons a t ih =>
    rw [List.dropWhile_cons]
    by_cases h : p a = true
    · rw [if_pos h]
      exact Nat.le_trans ih (Nat.le_succ _)
    · rw [if_neg h]

/-- A match of the mention pattern consumes at least one character, so the
remainder is strictly shorter. -/
theorem dropMention_length (l t : List Char) (h : dropMention l = some t) :
    t.length < l.length := by
  unfold dropMention at h
  split at h
  · rename_i rest
    split at h
    · rename_i tail heq
      split at h
      · exact absurd h (by simp)
      · have h' : tail = t := by
          simpa using h
        subst h'
        have hle : ('>' :: tail).length ≤ rest.length := by
          rw [← heq]
          exact dropWhile_length_le _ _
        simp only [List.length_cons] at hle ⊢
        omega
    · exact absurd h (by simp)
  · exact absurd h (by simp)

/-- The replacement scan is insensitive to the fuel as soon as the fuel
covers the input length; in particular one unit of fuel per input position
suffices, which justifies the fuel used by removeMentions. -/
theorem rmFuel_fuel_irrelevant (n : Nat) :
    ∀ l : List Char, l.length ≤ n → ∀ m, l.length ≤ m → rmFuel n l = rmFuel m l := by
  induction n with
  | zero =>
    intro l hl m _
    have hnil : l = [] := List.length_eq_zero.mp (Nat.le_zero.mp hl)
    subst hnil
    cases m <;> rfl
  | succ n ih =>
    intro l hl m hm
    cases l with
    | nil => cases m <;> rfl
    | cons c cs =>
      cases m with
      | zero => simp at hm
      | succ m' =>
        simp only [rmFuel]
        cases hd : dropMention (c :: cs) with
        | some t =>
          have ht := dropMention_length _ _ hd
          simp only [List.length_cons] at ht hl hm
          exact ih t (by omega) m' (by omega)
        | none =>
          simp only [List.length_cons] at hl hm
          rw [ih cs (by omega) m' (by omega)]

/-- C1: for every input whose normalized text does not end with the
question-mark character, the mention handler's computed reply is exactly
the fixed prompt asking for a question. -/
theorem C1_no_question_prompt (text : String) (seed : Nat)
    (h : hasSuffixQ (normalizeMention text) = false) :
    ∀ u c : String,
      (handleAppMention ⟨u, c, text⟩ seed).1 = "Where's the question?" := by
  intro u c
  simp [handleAppMention, computeReply, h]

/-- Concrete instance of C1 at an input without a question mark. -/
theorem C1_no_question_prompt_witness :
    hasSuffixQ (normalizeMention "no punctuation") = false ∧
    (handleAppMention ⟨"U1", "C1", "no punctuation"⟩ 7).1 = "Where's the question?" :=
  ⟨by decide, C1_no_question_prompt "no punctuation" 7 (by decide) "U1" "C1"⟩

/-- C2: for every query that ends with the question mark and whose lowered
form starts with one of the seven question words (prefix match from
position zero, no word boundary), the computed reply is exactly the fixed
rejection message. -/
theorem C2_open_ended_rejection (q : String) (seed : Nat)
    (h1 : hasSuffixQ q = true) (h2 : startsWithQW (toLowerGo q) = true) :
    computeReply q seed = "I'm not a tarot deck. Yes or no questions please." := by
  simp [computeReply, goMatch_ok, h1, h2]

/-- Concrete instance of C2, also at an input where the match is a strict
prefix rather than a whole word. -/
theorem C2_open_ended_rejection_witness :
    (hasSuffixQ "Who will win?" = true ∧
      startsWithQW (toLowerGo "Who will win?") = true ∧
      computeReply "Who will win?" 0 = "I'm not a tarot deck. Yes or no questions please.") ∧
    (hasSuffixQ "However?" = true ∧
      startsWithQW (toLowerGo "However?") = true ∧
      computeReply "However?" 3 = "I'm not a tarot deck. Yes or no questions please.") :=
  ⟨⟨by decide, by decide, C2_open_ended_rejection "Who will win?" 0 (by decide) (by decide)⟩,
   ⟨by decide, by decide, C2_open_ended_rejection "However?" 3 (by decide) (by decide)⟩⟩

/-- C3: the pool literal has exactly twenty non-empty entries, the random
draw always lies below twenty, and every reply on the yes/no branch is a
member of the pool and in particular non-empty. -/
theorem C3_pool_selection_safe :
    magicResponse.length = 20 ∧
    (∀ r ∈ magicResponse, r ≠ "") ∧
    (∀ seed : Nat, randIntn seed magicResponse.length < 20) ∧
    (∀ (q : String) (seed : Nat), hasSuffixQ q = true →
      startsWithQW (toLowerGo q) = false →
      computeReply q seed ∈ magicResponse ∧ computeReply q seed ≠ "") := by
  have h20 : magicResponse.length = 20 := by decide
  refine ⟨h20, by decide, ?_, ?_⟩
  · intro seed
    have hlt := Nat.mod_lt seed magicResponse_length_pos
    rw [h20] at hlt
    simpa [randIntn, h20] using hlt
  · intro q seed h1 h2
    have hr : computeReply q seed
        = magicResponse.get
            ⟨randIntn seed magicResponse.length,
             Nat.mod_lt seed magicResponse_length_pos⟩ := by
      simp [computeReply, goMatch_ok, h1, h2]
    have hmem : computeReply q seed ∈ magicResponse := by
      rw [hr]; exact List.get_mem _ _ _
    refine ⟨hmem, ?_⟩
    have hne : ∀ r ∈ magicResponse, r ≠ "" := by decide
    exact hne _ hmem

/-- Concrete instance of C3 at a yes/no question. -/
theorem C3_pool_selection_safe_witness :
    computeReply "Will it rain?" 5 ∈ magicResponse ∧ computeReply "Will it rain?" 5 ≠ "" :=
  C3_pool_selection_safe.2.2.2 "Will it rain?" 5 (by decide) (by decide)

/-- C7: the fixed pattern passes the compile check, so the pattern-match
operation never returns an error; classification is therefore total — the
reply decision coincides with the three-way classifier followed by the
selector on every input — and the defensive fallback reply is never
produced. -/
theorem C7_classification_total :
    patternOk openEndedPattern = true ∧
    (∀ s : String, goMatchString s = Except.ok (startsWithQW s)) ∧
    (∀ (q : String) (seed : Nat), computeReply q seed = selectReply (classify q) seed) ∧
    (∀ (q : String) (seed : Nat),
      computeReply q seed ≠ "I'm having trouble understanding. Please try again.") := by
  refine ⟨by decide, goMatch_ok, computeReply_eq_pipeline, ?_⟩
  intro q seed
  rw [computeReply_eq_pipeline]
  cases classify q with
  | NotAQuestion => simp only [selectReply]; decide
  | OpenEndedQuestion => simp only [selectReply]; decide
  | YesNoQuestion =>
    have hne : ∀ r ∈ magicResponse,
        r ≠ "I'm having trouble understanding. Please try again." := by decide
    exact hne _ (List.get_mem _ _ _)

/-- C10: the reply computed for an app-mention event depends only on the
event text and the random-source state; the user and channel identifiers
do not influence it (the channel only selects the delivery destination). -/
theorem C10_reply_depends_only_on_text (e1 e2 : AppMentionEvent) (seed : Nat)
    (h : e1.text = e2.text) :
    (handleAppMention e1 seed).1 = (handleAppMention e2 seed).1 := by
  simp [handleAppMention, h]

/-- Concrete instance of C10: same text, different user and channel. -/
theorem C10_reply_depends_only_on_text_witness :
    (handleAppMention ⟨"U1", "C1", "Will it rain?"⟩ 3).1
      = (handleAppMention ⟨"U2", "C2", "Will it rain?"⟩ 3).1 :=
  C10_reply_depends_only_on_text
    ⟨"U1", "C1", "Will it rain?"⟩ ⟨"U2", "C2", "Will it rain?"⟩ 3 rfl

/-- C8: whenever the request reaches the signature check and the check
fails, both slash-command handlers respond with status 403 and return at
once: the payload is never parsed and no reply is computed, so the outcome
is the fixed Forbidden response, independent of the payload text, the
parse outcome and the marshalling outcome. -/
theorem C8_invalid_signature_forbidden (req : SlashRequest) (seed : Nat)
    (hm : req.method = "POST") (hb : req.bodyReadOk = true)
    (hv : req.verifierHeadersOk = true) (hw : req.verifierWriteOk = true)
    (hs : req.signatureValid = false) :
    handleSlashCommand req seed = ⟨httpError ResponseWriter.empty "Forbidden" 403, none⟩ ∧
    (handleSlashCommand req seed).w.status = some 403 ∧
    (handleSlashCommand req seed).computedReply = none ∧
    handleSlashCommandHttpVariant req seed
      = ⟨httpError ResponseWriter.empty "Forbidden" 403, none⟩ := by
  have h1 : handleSlashCommand req seed
      = ⟨httpError ResponseWriter.empty "Forbidden" 403, none⟩ := by
    simp [handleSlashCommand, hm, hb, hv, hw, hs]
  have h2 : handleSlashCommandHttpVariant req seed
      = ⟨httpError ResponseWriter.empty "Forbidden" 403, none⟩ := by
    simp [handleSlashCommandHttpVariant, hm, hb, hv, hw, hs]
  refine ⟨h1, ?_, ?_, h2⟩
  · rw [h1]; decide
  · rw [h1]

/-- Concrete instance of C8: a POST with readable body and well-formed
headers whose signature check fails. -/
theorem C8_invalid_signature_forbidden_witness :
    (handleSlashCommand ⟨"POST", true, true, true, false, true, "Will it rain?", true⟩ 0).w.status
      = some 403 ∧
    (handleSlashCommand ⟨"POST", true, true, true, false, true, "Will it rain?", true⟩ 0).computedReply
      = none :=
  ⟨(C8_invalid_signature_forbidden
      ⟨"POST", true, true, true, false, true, "Will it rain?", true⟩ 0
      rfl rfl rfl rfl rfl).2.1,
   (C8_invalid_signature_forbidden
      ⟨"POST", true, true, true, false, true, "Will it rain?", true⟩ 0
      rfl rfl rfl rfl rfl).2.2.1⟩

/-- C4: on a fully valid slash-command POST, the HTTP-only variant computes
the real reply through the core pipeline but writes a body whose text field
is a fixed placeholder instead, while the hybrid variant writes the
computed reply. Evaluated at a concrete valid request. -/
theorem C4_variant_placeholder_defect :
    (handleSlashCommandHttpVariant
        ⟨"POST", true, true, true, true, true, "Will it rain?", true⟩ 0).computedReply
      = some "Signs point to no." ∧
    (handleSlashCommandHttpVariant
        ⟨"POST", true, true, true, true, true, "Will it rain?", true⟩ 0).w.body
      = marshalTextMap "Magic 8-ball is here! (This is a test response)" ∧
    (handleSlashCommandHttpVariant
        ⟨"POST", true, true, true, true, true, "Will it rain?", true⟩ 0).w.body
      ≠ marshalTextMap "Signs point to no." ∧
    (handleSlashCommand
        ⟨"POST", true, true, true, true, true, "Will it rain?", true⟩ 0).w.body
      = marshalTextMap "Signs point to no." := by
  refine ⟨?_, ?_, ?_, ?_⟩ <;> decide

/-- C9: on a valid signed POST the hybrid handler does send status 200 with
the JSON body, but the Content-Type header is set only after WriteHeader
and therefore never takes effect; and when marshalling fails, http.Error
runs after the 200 header is already written, so the status stays 200 and
no 500 is sent. Evaluated at concrete valid requests. -/
theorem C9_response_header_defect :
    (handleSlashCommand
        ⟨"POST", true, true, true, true, true, "Will it rain?", true⟩ 0).w.status
      = some 200 ∧
    (handleSlashCommand
        ⟨"POST", true, true, true, true, true, "Will it rain?", true⟩ 0).w.body
      = marshalTextMap "Signs point to no." ∧
    (handleSlashCommand
        ⟨"POST", true, true, true, true, true, "Will it rain?", true⟩ 0).w.contentType
      = none ∧
    (handleSlashCommand
        ⟨"POST", true, true, true, true, true, "Will it rain?", true⟩ 0).w.contentType
      ≠ some "application/json" ∧
    (handleSlashCommand
        ⟨"POST", true, true, true, true, true, "Will it rain?", false⟩ 0).w.status
      = some 200 ∧
    (handleSlashCommand
        ⟨"POST", true, true, true, true, true, "Will it rain?", false⟩ 0).w.status
      ≠ some 500 := by
  refine ⟨?_, ?_, ?_, ?_, ?_, ?_⟩ <;> decide

/-- C5 fails as stated: for the raw text with a trailing space and the same
random-source state, the mention path normalizes (trims) before the suffix
check and draws a pool answer, while the slash path classifies the raw text
and asks for a question, so the two replies differ. -/
theorem C5_paths_differ_counterexample :
    (handleAppMention ⟨"U1", "C1", "ok? "⟩ 0).1 = "Signs point to no." ∧
    (handleSlashCommand ⟨"POST", true, true, true, true, true, "ok? ", true⟩ 0).computedReply
      = some "Where's the question?" ∧
    ¬ (handleSlashCommand ⟨"POST", true, true, true, true, true, "ok? ", true⟩ 0).computedReply
      = some ((handleAppMention ⟨"U1", "C1", "ok? "⟩ 0).1) := by
  refine ⟨?_, ?_, ?_⟩ <;> decide

/-- C5 amended: both inbound shapes reduce to the classifier-selector core,
but only the mention path normalizes first — the mention reply is the
selector applied to the classification of the normalized text, the slash
reply is the selector applied to the classification of the raw payload
text, and whenever normalization leaves the text unchanged the two replies
agree for identical random-source state (they may also agree incidentally
on texts normalization does change, when both classifications coincide). -/
theorem C5_shared_core_amended :
    (∀ (u c t : String) (seed : Nat),
      (handleAppMention ⟨u, c, t⟩ seed).1
        = selectReply (classify (normalizeMention t)) seed) ∧
    (∀ (req : SlashRequest) (seed : Nat), okGuards req = true →
      (handleSlashCommand req seed).computedReply
        = some (selectReply (classify req.text) seed)) ∧
    (∀ (u c : String) (req : SlashRequest) (seed : Nat), okGuards req = true →
      normalizeMention req.text = req.text →
      (handleSlashCommand req seed).computedReply
        = some ((handleAppMention ⟨u, c, req.text⟩ seed).1)) := by
  have hA : ∀ (u c t : String) (seed : Nat),
      (handleAppMention ⟨u, c, t⟩ seed).1
        = selectReply (classify (normalizeMention t)) seed := by
    intro u c t seed
    simp [handleAppMention, computeReply_eq_pipeline]
  have hB : ∀ (req : SlashRequest) (seed : Nat), okGuards req = true →
      (handleSlashCommand req seed).computedReply
        = some (selectReply (classify req.text) seed) := by
    intro req seed hg
    simp only [okGuards, Bool.and_eq_true, beq_iff_eq] at hg
    obtain ⟨⟨⟨⟨⟨hm, hb⟩, hv⟩, hw⟩, hs⟩, hp⟩ := hg
    cases hmar : req.marshalOk with
    | true =>
      simp [handleSlashCommand, hm, hb, hv, hw, hs, hp, hmar,
        computeReply_eq_pipeline]
    | false =>
      simp [handleSlashCommand, hm, hb, hv, hw, hs, hp, hmar,
        computeReply_eq_pipeline]
  refine ⟨hA, hB, ?_⟩
  intro u c req seed hg hn
  rw [hB req seed hg, hA u c req.text seed, hn]

/-- Concrete instance of the amended C5 at a text fixed by normalization:
the two paths produce the same reply for the same random-source state. -/
theorem C5_shared_core_amended_witness :
    (handleSlashCommand ⟨"POST", true, true, true, true, true, "hi?", true⟩ 11).computedReply
      = some ((handleAppMention ⟨"U1", "C1", "hi?"⟩ 11).1) :=
  C5_shared_core_amended.2.2 "U1" "C1"
    ⟨"POST", true, true, true, true, true, "hi?", true⟩ 11 (by decide) (by decide)

/-- C6 fails as stated: deleting the non-overlapping mention matches can
splice the surrounding text into a fresh mention token, which a second
normalization pass then deletes, so normalize is not idempotent. -/
theorem C6_not_idempotent_counterexample :
    ¬ removeBotMention (removeBotMention "<<@a>@b>") = removeBotMention "<<@a>@b>" := by
  decide

/-- C6 amended: normalize is idempotent on every input whose normalized
form contains no further mention-pattern match — in particular on all
ordinary texts, where stripping mentions cannot assemble a new mention
token. -/
theorem C6_idempotent_amended (x : String)
    (h : containsMention (removeBotMention x).data = false) :
    removeBotMention (removeBotMention x) = removeBotMention x := by
  unfold removeBotMention
  show String.mk (trimL (removeMentions (trimL (removeMentions x.data))))
      = String.mk (trimL (removeMentions x.data))
  have h' : containsMention (trimL (removeMentions x.data)) = false := h
  have hm : removeMentions (trimL (removeMentions x.data))
      = trimL (removeMentions x.data) :=
    rmFuel_of_not_contains _ _ h'
  rw [hm, trimL_idem]

/-- Concrete instance of the amended C6 at the spec's own normalization
example. -/
theorem C6_idempotent_amended_witness :
    containsMention (removeBotMention "<@U123ABC> is this real?").data = false ∧
    removeBotMention (removeBotMention "<@U123ABC> is this real?")
      = removeBotMention "<@U123ABC> is this real?" :=
  ⟨by decide, C6_idempotent_amended "<@U123ABC> is this real?" (by decide)⟩
